import Mathlib

/-!
Formal model (shallow embedding) of the threat-scoring and alert-dispatch
pipeline of the SummerCampProject repository.

The embedding covers, faithfully to the Python sources:
  * `config.py`    — the danger-weight table, proximity thresholds, voice
                     message templates and the alert cooldown;
  * `danger_assessment.py` — `DangerAssessor.assess` and its helpers;
  * `beep_manager.py`      — the pure parameter mapping and the stateful
                     gate of `BeepManager.update`;
  * `audio_alert_manager.py` — `AudioAlertManager.update` (the cooldown
                     gate), with text-to-speech modelled as an abstract
                     fallible function;
  * `voice_alert.py` — `VoiceAlert.alert` (per-key cooldown plus enqueue)
                     and the underlying `queue.PriorityQueue`, which is
                     CPython `heapq` over a list of `VoiceMessage`s that
                     compare on `priority` alone;
  * `app.py`       — the per-frame selection of the representative threat
                     (`assessments.sort(key=..., reverse=True)` followed by
                     taking `assessments[0]`).

Numbers: Python floats in the sources are decimal literals compared and
combined with +, -, *, /; they are modelled as exact rationals (ℚ), and
Python ints as ℤ/ℕ.  `min`, `max` and `abs` are written as the explicit
conditionals Python evaluates, so that everything computes.
-/

/-- Python `min(a, b)` on numbers: returns `b` exactly when `b < a`. -/
def pymin (a b : ℚ) : ℚ := if b < a then b else a

/-- Python `max(a, b)` on numbers: returns `b` exactly when `b > a`. -/
def pymax (a b : ℚ) : ℚ := if b > a then b else a

/-- Python `abs` on a rational. -/
def pyabs (a : ℚ) : ℚ := if a < 0 then -a else a

/-- Python `dict.get(k, dflt)` over a key-ordered association list. -/
def dictGetD {α : Type} (l : List (String × α)) (k : String) (dflt : α) : α :=
  match l.find? (fun p => p.1 == k) with
  | some p => p.2
  | none => dflt

/-- Python `d[k] = v` on an association list: replace the binding if the key
is present, otherwise append it. -/
def dictSet {α : Type} (l : List (String × α)) (k : String) (v : α) :
    List (String × α) :=
  if l.any (fun p => p.1 == k) then
    l.map (fun p => if p.1 == k then (k, v) else p)
  else
    l ++ [(k, v)]

/-- config.DANGEROUS_OBJECTS: base threat weight (1-10) per class name. -/
def DANGEROUS_OBJECTS : List (String × ℚ) :=
  [("car", 10), ("truck", 10), ("bus", 10), ("motorcycle", 9), ("bicycle", 7),
   ("person", 5), ("dog", 6), ("cat", 4), ("horse", 7),
   ("chair", 3), ("bench", 3), ("fire hydrant", 4), ("stop sign", 2),
   ("parking meter", 3), ("suitcase", 3), ("backpack", 2)]

/-- config.PROXIMITY_THRESHOLDS["muy_cerca"] = 0.15. -/
def PROXIMITY_muy_cerca : ℚ := 15 / 100

/-- config.PROXIMITY_THRESHOLDS["cerca"] = 0.08. -/
def PROXIMITY_cerca : ℚ := 8 / 100

/-- config.PROXIMITY_THRESHOLDS["medio"] = 0.03. -/
def PROXIMITY_medio : ℚ := 3 / 100

/-- config.ALERT_COOLDOWN = 2.0 seconds. -/
def ALERT_COOLDOWN : ℚ := 2

/-- config.VOICE_MESSAGES[danger_level].format(objeto=...): the three
per-level templates with the object name substituted. -/
def VOICE_MESSAGES_format (danger_level objeto : String) : String :=
  if danger_level = "ALTO" then "¡Cuidado! " ++ objeto ++ " muy cerca, peligro alto"
  else if danger_level = "MEDIO" then "Atención, " ++ objeto ++ " adelante"
  else objeto ++ " detectado a distancia"

/-- detector.Detection: one recognized object of a frame. -/
structure Detection where
  class_name : String
  confidence : ℚ
  bbox : ℤ × ℤ × ℤ × ℤ
  center : ℤ × ℤ
  relative_area : ℚ
deriving Repr, DecidableEq

/-- danger_assessment.DangerAssessment. -/
structure DangerAssessment where
  detection : Detection
  danger_level : String
  danger_score : ℚ
  message : String
deriving Repr, DecidableEq

/-- DangerAssessor._get_proximity_multiplier. -/
def get_proximity_multiplier (relative_area : ℚ) : ℚ :=
  if relative_area ≥ PROXIMITY_muy_cerca then 10
  else if relative_area ≥ PROXIMITY_cerca then 6
  else if relative_area ≥ PROXIMITY_medio then 3
  else 1

/-- DangerAssessor._get_position_multiplier.  Python evaluates
`center_x / frame_width` with true division, which raises
`ZeroDivisionError` exactly when `frame_width == 0`; that case is factored
out into `assess` below, so this helper is the non-zero-width body. -/
def get_position_multiplier (center_x : ℤ) (frame_width : ℤ) : ℚ :=
  let normalized_x : ℚ := (center_x : ℚ) / (frame_width : ℚ)
  let distance_from_center := pyabs (normalized_x - 1/2)
  3/2 - distance_from_center

/-- DangerAssessor._translate_object's table. -/
def translations : List (String × String) :=
  [("person", "persona"), ("car", "carro"), ("truck", "camión"), ("bus", "autobús"),
   ("motorcycle", "moto"), ("bicycle", "bicicleta"), ("dog", "perro"), ("cat", "gato"),
   ("horse", "caballo"), ("chair", "silla"), ("bench", "banco"),
   ("fire hydrant", "hidrante"), ("stop sign", "señal de alto"),
   ("parking meter", "parquímetro"), ("suitcase", "maleta"), ("backpack", "mochila"),
   ("bottle", "botella"), ("cup", "taza"), ("laptop", "laptop"),
   ("cell phone", "teléfono"), ("book", "libro"), ("clock", "reloj"),
   ("scissors", "tijeras"), ("teddy bear", "oso de peluche"), ("potted plant", "planta"),
   ("bed", "cama"), ("dining table", "mesa"), ("toilet", "inodoro"),
   ("tv", "televisor"), ("couch", "sofá"), ("umbrella", "paraguas")]

/-- DangerAssessor._translate_object: `translations.get(class_name, class_name)`. -/
def translate_object (class_name : String) : String :=
  match translations.find? (fun p => p.1 == class_name) with
  | some p => p.2
  | none => class_name

/-- The inline level-threshold ladder of DangerAssessor.assess
(danger_assessment.py lines 44-49). -/
def danger_level_of (danger_score : ℚ) : String :=
  if danger_score ≥ 60 then "ALTO"
  else if danger_score ≥ 30 then "MEDIO"
  else "BAJO"

/-- DangerAssessor.assess.  The one failure mode of the Python body is the
`ZeroDivisionError` raised by `center_x / frame_width` when
`frame_width == 0`; it is modelled as the `Except.error` branch.  All other
inputs produce an assessment. -/
def assess (detection : Detection) (frame_width : ℤ) :
    Except String DangerAssessment :=
  if frame_width = 0 then Except.error ("ZeroDivisionError") else
  let base_danger := dictGetD DANGEROUS_OBJECTS detection.class_name 1
  let proximity_multiplier := get_proximity_multiplier detection.relative_area
  let position_multiplier := get_position_multiplier detection.center.1 frame_width
  let danger_score := pymin 100 (base_danger * proximity_multiplier * position_multiplier)
  let danger_level := danger_level_of danger_score
  let message := VOICE_MESSAGES_format danger_level (translate_object detection.class_name)
  Except.ok
    { detection := detection
      danger_level := danger_level
      danger_score := danger_score
      message := message }

/-- BeepManager.update's frequency mapping: `400 + danger_score * 8`. -/
def tone_frequency (danger_score : ℚ) : ℚ := 400 + danger_score * 8

/-- BeepManager.update's volume mapping: `max(0.2, (danger_score/100)**2)`. -/
def tone_volume (danger_score : ℚ) : ℚ := pymax (2/10) ((danger_score / 100) ^ 2)

/-- BeepManager.update's repetition-interval mapping:
`max(0.15, 1.5 - danger_score/80)`. -/
def tone_interval (danger_score : ℚ) : ℚ := pymax (15/100) (3/2 - danger_score / 80)

/-- BeepManager.update's pulse-duration mapping: `0.08 if danger_score > 80
else 0.1`. -/
def tone_duration (danger_score : ℚ) : ℚ := if danger_score > 80 then 8/100 else 1/10

/-- The mutable fields of BeepManager that `update` reads or writes. -/
structure BeepState where
  last_beep_time : ℚ
  is_active : Bool
deriving Repr, DecidableEq

/-- BeepManager.update as a state transition.  The first component is the
`(frequency, duration, volume)` triple handed to `_generate_wav_bytes` and
`winsound.PlaySound` when a beep is emitted, `none` when no sound is
played.  `playOk` models whether the `winsound` call raises: on failure the
exception handler sets `is_active = False` and the beep time is not
updated. -/
def beep_update (st : BeepState) (danger_score : ℚ) (current_time : ℚ)
    (playOk : Bool) : Option (ℚ × ℚ × ℚ) × BeepState :=
  if ¬ st.is_active ∨ danger_score < 20 then (none, st)
  else if current_time - st.last_beep_time ≥ tone_interval danger_score then
    if playOk then
      (some (tone_frequency danger_score, tone_duration danger_score,
             tone_volume danger_score),
       { st with last_beep_time := current_time })
    else (none, { st with is_active := false })
  else (none, st)

/-- The mutable fields of AudioAlertManager that `update` reads or writes.
The audio cache only memoizes the deterministic text-to-speech call and is
not modelled. -/
structure AAMState where
  last_alert_time : ℚ
  last_message : String
deriving Repr, DecidableEq

/-- AudioAlertManager.min_danger_threshold = 20. -/
def min_danger_threshold : ℚ := 20

/-- The message construction of AudioAlertManager.update (step 3).  The
Python `context` is `None`, lacks `'assessments'`, or holds an empty list
exactly when the list argument here is empty, in which case the default
message is used.  `primary_threat.message` always exists (dataclass field),
so the `hasattr` test reduces to the truthiness of the string. -/
def build_message (assessments : List DangerAssessment) : String :=
  match assessments with
  | [] => "Peligro detectado."
  | primary_threat :: _ =>
    let pfx :=
      if primary_threat.danger_level = "ALTO" then "¡Peligro alto!"
      else if primary_threat.danger_level = "MEDIO" then "Cuidado."
      else "Atención."
    let details :=
      if primary_threat.message ≠ "" then primary_threat.message
      else primary_threat.detection.class_name ++ " detectado"
    pfx ++ " " ++ details

/-- AudioAlertManager.update as a state transition.  `tts` models
`_generate_audio_bytes`: `none` when gTTS raises (the handler returns
`None`), otherwise the produced MP3 bytes.  Python returns the generated
`audio_bytes` value itself and updates `last_alert_time`/`last_message`
only when that value is truthy (non-`None` and non-empty). -/
def audio_update (tts : String → Option (List Nat)) (st : AAMState)
    (danger_score : ℚ) (assessments : List DangerAssessment)
    (current_time : ℚ) : Option (List Nat) × AAMState :=
  if danger_score < min_danger_threshold then (none, st)
  else if current_time - st.last_alert_time < ALERT_COOLDOWN then (none, st)
  else
    let message := build_message assessments
    if message = st.last_message ∧
        current_time - st.last_alert_time < ALERT_COOLDOWN * (3/2) then (none, st)
    else
      match tts message with
      | none => (none, st)
      | some audio_bytes =>
        if audio_bytes ≠ [] then
          (some audio_bytes, { last_alert_time := current_time, last_message := message })
        else (some audio_bytes, st)

/-- voice_alert.VoiceMessage.  `@dataclass(order=True)` with `message` and
`object_type` marked `compare=False`, so `<` between two messages compares
the `priority` field alone. -/
structure VoiceMessage where
  priority : Nat
  message : String
  object_type : String
deriving Repr, DecidableEq

/-- The `<` of VoiceMessage used by `heapq`: priority only. -/
def vmLt (a b : VoiceMessage) : Bool := a.priority < b.priority

/-- VoiceAlert.alert as a state transition on the per-object-type cooldown
map `last_alert_time` (Python `dict`, default `0`).  The first component is
the VoiceMessage enqueued into the priority queue, `none` when the call is
suppressed by the cooldown. -/
def voice_alert (last_alert_time : List (String × ℚ))
    (message object_type danger_level : String) (current_time : ℚ) :
    Option VoiceMessage × List (String × ℚ) :=
  let last_time := dictGetD last_alert_time object_type 0
  if current_time - last_time < ALERT_COOLDOWN then (none, last_alert_time)
  else
    let st := dictSet last_alert_time object_type current_time
    let priority := dictGetD [("ALTO", 0), ("MEDIO", 1), ("BAJO", 2)] danger_level 2
    (some { priority := priority, message := message, object_type := object_type }, st)

/-- CPython `heapq._siftdown(heap, startpos, pos)` with `newitem =
heap[pos]` passed explicitly.  The fuel argument bounds the iterations of
the `while pos > startpos` loop (each step replaces `pos` by its parent, so
`pos + 1` fuel always suffices); callers supply enough fuel, making the
zero-fuel branch unreachable. -/
def siftdown_loop : Nat → Array VoiceMessage → Nat → VoiceMessage → Nat →
    Array VoiceMessage
  | 0, heap, _, newitem, pos => heap.setD pos newitem
  | fuel + 1, heap, startpos, newitem, pos =>
    if startpos < pos then
      let parentpos := (pos - 1) / 2
      let parent := heap.getD parentpos newitem
      if vmLt newitem parent then
        siftdown_loop fuel (heap.setD pos parent) startpos newitem parentpos
      else heap.setD pos newitem
    else heap.setD pos newitem

/-- CPython `heapq.heappush`: append, then sift the new last element down
towards the root. -/
def heappush (heap : Array VoiceMessage) (item : VoiceMessage) :
    Array VoiceMessage :=
  siftdown_loop (heap.size + 1) (heap.push item) 0 item heap.size

/-- CPython `heapq._siftup(heap, pos)` with `newitem = heap[pos]` passed
explicitly and `endpos = len(heap)`.  The fuel bounds the iterations of the
`while childpos < endpos` loop (`pos` at least doubles each step, so
`endpos` fuel always suffices). -/
def siftup_loop : Nat → Array VoiceMessage → Nat → Nat → VoiceMessage → Nat →
    Array VoiceMessage
  | 0, heap, _, _, _, _ => heap
  | fuel + 1, heap, endpos, startpos, newitem, pos =>
    if 2 * pos + 1 < endpos then
      let childpos := 2 * pos + 1
      let rightpos := childpos + 1
      let childpos :=
        if rightpos < endpos &&
            ! vmLt (heap.getD childpos newitem) (heap.getD rightpos newitem) then
          rightpos
        else childpos
      siftup_loop fuel (heap.setD pos (heap.getD childpos newitem)) endpos
        startpos newitem childpos
    else
      siftdown_loop (pos + 1) (heap.setD pos newitem) startpos newitem pos

/-- CPython `heapq.heappop`: pop the last element; if the heap is still
non-empty, the root is returned and the last element is sifted up from the
root.  `queue.PriorityQueue.get` never calls it on an empty list (the
worker checks emptiness first), modelled by the `none` result. -/
def heappop (heap : Array VoiceMessage) :
    Option VoiceMessage × Array VoiceMessage :=
  match heap.back? with
  | none => (none, heap)
  | some lastelt =>
    let heap := heap.pop
    if heap.size = 0 then (some lastelt, heap)
    else
      let returnitem := heap.getD 0 lastelt
      let heap := heap.setD 0 lastelt
      (some returnitem, siftup_loop heap.size heap heap.size 0 lastelt 0)

/-- Repeated `heappop`, as performed by the single worker of
`VoiceAlert._process_queue`, which dequeues one message at a time and
renders it; `fuel` bounds the number of pops. -/
def drain : Nat → Array VoiceMessage → List VoiceMessage
  | 0, _ => []
  | fuel + 1, heap =>
    match heappop heap with
    | (none, _) => []
    | (some vm, heap') => vm :: drain fuel heap'

/-- Stable insertion of an assessment into a list already sorted by
descending `danger_score`: the new element goes before the first strictly
smaller score and after every earlier element with an equal score. -/
def insert_desc_by_score (x : DangerAssessment) :
    List DangerAssessment → List DangerAssessment
  | [] => [x]
  | y :: ys =>
    if x.danger_score ≥ y.danger_score then x :: y :: ys
    else y :: insert_desc_by_score x ys

/-- app.py `assessments.sort(key=lambda x: x.danger_score, reverse=True)`:
Python's sort is stable also under `reverse=True` (equal keys keep their
original relative order), and the stable descending order of a list is
unique, so this insertion sort computes exactly the list Python produces. -/
def sort_desc_by_score : List DangerAssessment → List DangerAssessment
  | [] => []
  | x :: xs => insert_desc_by_score x (sort_desc_by_score xs)

/-- app.py's representative threat: `assessments[0]` after the descending
stable sort; `none` when there are no assessments. -/
def frame_representative (assessments : List DangerAssessment) :
    Option DangerAssessment :=
  (sort_desc_by_score assessments).head?

/-- The per-frame signals of app.py's main loop when at least one
assessment exists: `assessments[0].danger_level` is sent to the UI danger
indicator and `assessments[0].danger_score` to `audio_manager.update`. -/
def frame_signals (assessments : List DangerAssessment) :
    Option (String × ℚ) :=
  match frame_representative assessments with
  | some a => some (a.danger_level, a.danger_score)
  | none => none

/-- Specification-side selection for comparison: the first element of the
list whose `danger_score` is maximal ("maximum danger_score, ties broken by
the earliest entry in detector output order"). -/
def first_max_by_score : List DangerAssessment → Option DangerAssessment
  | [] => none
  | x :: xs =>
    match first_max_by_score xs with
    | none => some x
    | some m => if m.danger_score > x.danger_score then some m else some x

/-- Concrete detection used in examples: a car filling 20% of the frame,
horizontally centred in a 640-pixel-wide frame. -/
def d_car : Detection :=
  { class_name := "car", confidence := 9/10, bbox := (0, 0, 100, 100),
    center := (320, 240), relative_area := 2/10 }

/-- Concrete detection with a class name absent from both the danger-weight
table and the translation table. -/
def d_zebra : Detection :=
  { class_name := "zebra", confidence := 8/10, bbox := (0, 0, 50, 50),
    center := (320, 240), relative_area := 1/10 }

/-- Concrete cooldown map holding one stale entry, so that an alert for
key "car" at time 0 passes the gate. -/
def vstate0 : List (String × ℚ) := [("car", -100)]

/-- Concrete AudioAlertManager state: an alert was emitted at time 0 with
the default message (the message an empty assessment list rebuilds). -/
def aam0 : AAMState := { last_alert_time := 0, last_message := "Peligro detectado." }

/-- Text-to-speech stub that always succeeds with one byte. -/
def tts1 : String → Option (List Nat) := fun _ => some [1]

/-- Concrete low-score assessment (score 10) for the selection examples. -/
def da_low : DangerAssessment :=
  { detection := d_zebra, danger_level := "BAJO", danger_score := 10,
    message := "zebra detectado a distancia" }

/-- Concrete high-score assessment (score 90) for the selection examples. -/
def da_high : DangerAssessment :=
  { detection := d_car, danger_level := "ALTO", danger_score := 90,
    message := "¡Cuidado! carro muy cerca, peligro alto" }

/-- Voice message A: priority band 2, enqueued first. -/
def vmA : VoiceMessage := { priority := 2, message := "A", object_type := "a" }

/-- Voice message B: priority band 2, enqueued after A. -/
def vmB : VoiceMessage := { priority := 2, message := "B", object_type := "b" }

/-- Voice message C: priority band 1, enqueued last. -/
def vmC : VoiceMessage := { priority := 1, message := "C", object_type := "c" }

/-- The queue after enqueueing A, B, C in that order. -/
def c1_queue : Array VoiceMessage := heappush (heappush (heappush #[] vmA) vmB) vmC

/-- The assessment `assess` produces for `d_zebra` in a 640-wide frame:
base weight falls back to 1, proximity 6 (area 0.10), position 1.5
(centred), score 9, level BAJO, untranslated label in the message. -/
def a_zebra : DangerAssessment :=
  { detection := d_zebra, danger_level := "BAJO", danger_score := 9,
    message := "zebra detectado a distancia" }

/-- Rank of a danger level, for stating monotonicity: BAJO < MEDIO < ALTO
(the Spanish labels of the code are the spec's LOW/MEDIUM/HIGH). -/
def level_rank (danger_level : String) : Nat :=
  if danger_level = "ALTO" then 2
  else if danger_level = "MEDIO" then 1
  else 0

theorem dictGetD_of_not_mem {α : Type} (l : List (String × α)) (k : String)
    (dflt : α) (hk : k ∉ l.map Prod.fst) : dictGetD l k dflt = dflt := by
  unfold dictGetD
  cases hf : l.find? (fun p => p.1 == k) with
  | none => rfl
  | some p =>
    exfalso
    have hp := List.find?_some hf
    have hmem : p ∈ l := List.mem_of_find?_eq_some hf
    exact hk (List.mem_map.2 ⟨p, hmem, by simpa using hp⟩)

theorem dictGetD_DANGEROUS_bounds (k : String) :
    1 ≤ dictGetD DANGEROUS_OBJECTS k 1 ∧ dictGetD DANGEROUS_OBJECTS k 1 ≤ 10 := by
  unfold dictGetD
  cases hf : DANGEROUS_OBJECTS.find? (fun p => p.1 == k) with
  | none => norm_num
  | some p =>
    have hmem : p ∈ DANGEROUS_OBJECTS := List.mem_of_find?_eq_some hf
    simp only [DANGEROUS_OBJECTS, List.mem_cons, List.not_mem_nil, or_false] at hmem
    rcases hmem with h|h|h|h|h|h|h|h|h|h|h|h|h|h|h|h <;> subst h <;> norm_num

theorem get_proximity_multiplier_bounds (a : ℚ) :
    1 ≤ get_proximity_multiplier a ∧ get_proximity_multiplier a ≤ 10 := by
  unfold get_proximity_multiplier
  split_ifs <;> norm_num

theorem get_position_multiplier_bounds (cx fw : ℤ) (hfw : 0 < fw)
    (h0 : 0 ≤ cx) (hw : cx ≤ fw) :
    1 ≤ get_position_multiplier cx fw ∧ get_position_multiplier cx fw ≤ 3/2 := by
  have hdef : get_position_multiplier cx fw
      = 3/2 - pyabs ((cx:ℚ)/(fw:ℚ) - 1/2) := rfl
  have hfw' : (0:ℚ) < (fw:ℚ) := by exact_mod_cast hfw
  have h0' : (0:ℚ) ≤ (cx:ℚ) := by exact_mod_cast h0
  have hw' : (cx:ℚ) ≤ (fw:ℚ) := by exact_mod_cast hw
  have hq0 : 0 ≤ (cx:ℚ) / (fw:ℚ) := div_nonneg h0' hfw'.le
  have hq1 : (cx:ℚ) / (fw:ℚ) ≤ 1 := (div_le_one hfw').2 hw'
  rw [hdef]
  unfold pyabs
  split_ifs with h <;> constructor <;> linarith

/-- C1 counterexample.  Enqueueing A (priority 2), then B (priority 2), then
C (priority 1) and draining the queue yields C, B, A: the two equal-priority
alerts A and B are dequeued in the order B, A although A was enqueued first,
refuting FIFO within a priority band (the `VoiceMessage` ordering compares
`priority` alone; there is no enqueue-sequence tie-break in the code, and
`heapq` is not stable). -/
theorem voice_queue_equal_priority_not_fifo :
    vmA.priority = vmB.priority ∧
    (drain 3 c1_queue).map VoiceMessage.message = ["C", "B", "A"] ∧
    ["C", "B", "A"] ≠ ["C", "A", "B"] := by decide

/-- C1 (amended).  The internal queue orders alerts by `priority` alone (no
enqueue sequence number exists), so FIFO within a band is not guaranteed;
what does hold is that the alert dequeued is one of minimal priority number:
for any two queued alerts the one with the strictly lower priority number is
dequeued first, irrespective of enqueue order. -/
theorem voice_queue_priority_order_two (a b : VoiceMessage) :
    drain 2 (heappush (heappush #[] a) b) =
      if b.priority < a.priority then [b, a] else [a, b] := by
  rcases Nat.lt_or_ge b.priority a.priority with h | h
  · rw [if_pos h]
    have hba : vmLt b a = true := by simpa [vmLt] using h
    simp [drain, heappop, heappush, siftdown_loop, siftup_loop, hba,
      Array.setD, Array.getD, Array.back?, Array.pop, Array.push, Array.set,
      Array.get?, List.set]
  · rw [if_neg (Nat.not_lt.2 h)]
    have hba : vmLt b a = false := by simp [vmLt]; omega
    simp [drain, heappop, heappush, siftdown_loop, siftup_loop, hba,
      Array.setD, Array.getD, Array.back?, Array.pop, Array.push, Array.set,
      Array.get?, List.set]

/-- C6.  The level thresholds of `assess` are exact: a score ≥ 60 yields
ALTO (HIGH), a score in [30, 60) yields MEDIO (MEDIUM), a score < 30 yields
BAJO (LOW); in particular 59.999 → MEDIO, 60 → ALTO, 29.999 → BAJO,
30 → MEDIO; and the level is a monotone step function of the score. -/
theorem danger_level_thresholds_exact_monotone :
    danger_level_of (59999/1000) = "MEDIO" ∧
    danger_level_of 60 = "ALTO" ∧
    danger_level_of (29999/1000) = "BAJO" ∧
    danger_level_of 30 = "MEDIO" ∧
    (∀ s : ℚ, (danger_level_of s = "ALTO" ↔ 60 ≤ s) ∧
      (danger_level_of s = "MEDIO" ↔ 30 ≤ s ∧ s < 60) ∧
      (danger_level_of s = "BAJO" ↔ s < 30)) ∧
    (∀ s t : ℚ, s ≤ t →
      level_rank (danger_level_of s) ≤ level_rank (danger_level_of t)) := by
  refine ⟨by norm_num [danger_level_of], by norm_num [danger_level_of],
    by norm_num [danger_level_of], by norm_num [danger_level_of], ?_, ?_⟩
  · intro s
    unfold danger_level_of
    split_ifs with h1 h2
    · exact ⟨⟨fun _ => h1, fun _ => rfl⟩,
        ⟨fun hh => absurd hh (by decide), fun hh => absurd hh.2 (by linarith)⟩,
        ⟨fun hh => absurd hh (by decide), fun hh => absurd hh (by linarith)⟩⟩
    · exact ⟨⟨fun hh => absurd hh (by decide), fun hh => absurd hh h1⟩,
        ⟨fun _ => ⟨h2, lt_of_not_ge h1⟩, fun _ => rfl⟩,
        ⟨fun hh => absurd hh (by decide), fun hh => absurd hh (by linarith)⟩⟩
    · exact ⟨⟨fun hh => absurd hh (by decide), fun hh => absurd hh h1⟩,
        ⟨fun hh => absurd hh (by decide), fun hh => absurd hh.1 h2⟩,
        ⟨fun _ => lt_of_not_ge h2, fun _ => rfl⟩⟩
  · intro s t hst
    unfold danger_level_of level_rank
    split_ifs <;> first | decide | (simp_all <;> linarith)

/-- C6 witness: the monotonicity component applied at scores 10 ≤ 70. -/
theorem danger_level_thresholds_exact_monotone_witness :
    level_rank (danger_level_of 10) ≤ level_rank (danger_level_of 70) :=
  danger_level_thresholds_exact_monotone.2.2.2.2.2 10 70 (by norm_num)

/-- C7 counterexample.  No clamping of the danger score happens before the
tone parameters are computed: for the out-of-range score 150 the emitted
frequency is 400 + 150·8 = 1600 Hz, whereas mapping the score clamped into
[0,100] would give 400 + 100·8 = 1200 Hz (similarly the volume comes out as
(150/100)² = 9/4, above the claimed [0,1] range). -/
theorem tone_mapper_no_clamp :
    (beep_update { last_beep_time := 0, is_active := true } 150 100 true).1
      = some (1600, 2/25, 9/4) ∧
    tone_frequency (pymin 100 (pymax 0 150)) = 1200 ∧
    (1600 : ℚ) ≠ 1200 := by
  refine ⟨?_, by norm_num [tone_frequency, pymin, pymax], by norm_num⟩
  norm_num [beep_update, tone_interval, tone_frequency, tone_duration,
    tone_volume, pymax]

/-- C7 (amended).  `BeepManager.update` never fails (it is a total
function); a score below 20 always yields the "no tone" result, whatever
the state; and whenever a tone is emitted its parameters are computed from
the raw (unclamped) score: frequency 400 + score·8, volume
max(0.2, (score/100)²), pulse duration 0.08 s if score > 80 else 0.1 s,
with repetition gated by the interval max(0.15, 1.5 − score/80). -/
theorem tone_mapper_total_raw_formulas (st : BeepState) (s t : ℚ) (ok : Bool) :
    (s < 20 → (beep_update st s t ok).1 = none) ∧
    (∀ f d v, (beep_update st s t ok).1 = some (f, d, v) →
      f = tone_frequency s ∧ d = tone_duration s ∧ v = tone_volume s ∧
      20 ≤ s ∧ st.is_active = true ∧ ok = true ∧
      t - st.last_beep_time ≥ tone_interval s) := by
  constructor
  · intro hs
    unfold beep_update
    rw [if_pos (Or.inr hs)]
  · intro f d v hout
    unfold beep_update at hout
    split_ifs at hout with h1 h2 h3
    push_neg at h1
    have hpair : (tone_frequency s, tone_duration s, tone_volume s)
        = (f, d, v) := Option.some.inj hout
    exact ⟨(congrArg Prod.fst hpair).symm,
      (congrArg (fun p => p.2.1) hpair).symm,
      (congrArg (fun p => p.2.2) hpair).symm, h1.2, h1.1, h3, h2⟩

/-- C7 witness: at score 10 (below the minimum threshold) the first
component of `tone_mapper_total_raw_formulas` gives "no tone". -/
theorem tone_mapper_total_raw_formulas_witness :
    (beep_update { last_beep_time := 0, is_active := true } 10 5 true).1 = none :=
  (tone_mapper_total_raw_formulas { last_beep_time := 0, is_active := true }
    10 5 true).1 (by norm_num)

/-- C9 counterexample.  Over the emitting range (score ≥ 20) the volume is
not strictly monotone: scores 20 and 30 both map to the floor volume
max(0.2, (s/100)²) = 0.2, so a higher danger score does not always yield a
higher volume. -/
theorem tone_volume_not_strictly_monotone :
    (20:ℚ) ≤ 20 ∧ (20:ℚ) < 30 ∧ tone_volume 20 = tone_volume 30 ∧
    tone_volume 20 = 1/5 := by
  norm_num [tone_volume, pymax]

/-- C9 (amended).  Over the emitting range (score ≥ 20) the frequency is
strictly increasing in the score, while volume and repetition interval are
monotone only in the weak sense — the volume never decreases and the
interval never increases — because of the floors max(0.2, ·) and
max(0.15, ·). -/
theorem tone_params_monotone (s t : ℚ) (hs : 20 ≤ s) (hst : s < t) :
    tone_frequency s < tone_frequency t ∧
    tone_volume s ≤ tone_volume t ∧
    tone_interval t ≤ tone_interval s := by
  refine ⟨by unfold tone_frequency; linarith, ?_, ?_⟩
  · unfold tone_volume pymax
    have hsq : (s/100)^2 ≤ (t/100)^2 := by nlinarith
    split_ifs <;> linarith
  · unfold tone_interval pymax
    split_ifs <;> linarith

/-- C9 witness: the monotonicity statement applied at scores 30 < 90. -/
theorem tone_params_monotone_witness :
    tone_frequency 30 < tone_frequency 90 ∧
    tone_volume 30 ≤ tone_volume 90 ∧
    tone_interval 90 ≤ tone_interval 30 :=
  tone_params_monotone 30 90 (by norm_num) (by norm_num)

theorem translate_object_of_not_mem (cl : String)
    (h : cl ∉ translations.map Prod.fst) : translate_object cl = cl := by
  unfold translate_object
  cases hf : translations.find? (fun p => p.1 == cl) with
  | none => rfl
  | some p =>
    exfalso
    have hp := List.find?_some hf
    have hmem : p ∈ translations := List.mem_of_find?_eq_some hf
    exact h (List.mem_map.2 ⟨p, hmem, by simpa using hp⟩)

/-- C2.  For every detection whose centre lies inside a frame of positive
width, `assess` succeeds and the returned danger_score lies in [0, 100]:
the product base_weight · proximity_multiplier · position_multiplier of a
base weight in [1,10], a proximity multiplier in {1,3,6,10} and a position
multiplier in [1, 1.5] is at least 1, and `min(100, ·)` caps it at 100. -/
theorem assess_danger_score_in_range (d : Detection) (fw : ℤ)
    (hfw : 0 < fw) (hc0 : 0 ≤ d.center.1) (hcw : d.center.1 ≤ fw) :
    (assess d fw).isOk = true ∧
    ∀ a, assess d fw = Except.ok a →
      0 ≤ a.danger_score ∧ a.danger_score ≤ 100 := by
  have hfw0 : ¬ fw = 0 := by omega
  have hbase := dictGetD_DANGEROUS_bounds d.class_name
  have hprox := get_proximity_multiplier_bounds d.relative_area
  have hpos := get_position_multiplier_bounds d.center.1 fw hfw hc0 hcw
  constructor
  · unfold assess
    rw [if_neg hfw0]
    rfl
  · intro a ha
    unfold assess at ha
    rw [if_neg hfw0] at ha
    have heq := Except.ok.inj ha
    have hscore : a.danger_score
        = pymin 100 (dictGetD DANGEROUS_OBJECTS d.class_name 1
            * get_proximity_multiplier d.relative_area
            * get_position_multiplier d.center.1 fw) := by
      rw [← heq]
    rw [hscore]
    unfold pymin
    have hge1 : 1 ≤ dictGetD DANGEROUS_OBJECTS d.class_name 1
        * get_proximity_multiplier d.relative_area
        * get_position_multiplier d.center.1 fw := by
      have hbp : (1:ℚ) * 1 ≤ dictGetD DANGEROUS_OBJECTS d.class_name 1
          * get_proximity_multiplier d.relative_area :=
        mul_le_mul hbase.1 hprox.1 zero_le_one (by linarith [hbase.1])
      have hbpq : (1:ℚ) * 1 ≤ (dictGetD DANGEROUS_OBJECTS d.class_name 1
          * get_proximity_multiplier d.relative_area)
          * get_position_multiplier d.center.1 fw :=
        mul_le_mul (by linarith [hbp]) hpos.1 zero_le_one (by linarith [hbp])
      linarith [hbpq]
    split_ifs with h <;> constructor <;> linarith

/-- C2 witness: the centred car detection in a 640-pixel frame is assessed
successfully (its score is 100, inside [0,100]). -/
theorem assess_danger_score_in_range_witness :
    (assess d_car 640).isOk = true :=
  (assess_danger_score_in_range d_car 640 (by norm_num)
    (by norm_num [d_car]) (by norm_num [d_car])).1

/-- C5 counterexample.  The claim says assess signals an invalid-argument
error if and only if frame_width is non-positive, but for the negative
width −3 the code raises nothing: `center_x / frame_width` divides by a
non-zero number and an assessment is returned. -/
theorem assess_negative_width_no_error :
    (-3 : ℤ) ≤ 0 ∧ (assess d_car (-3)).isOk = true := by
  constructor
  · norm_num
  · norm_num [assess, Except.isOk, Except.toBool]

/-- C5 (amended).  `assess` fails exactly when frame_width = 0 (the
ZeroDivisionError of `center_x / frame_width`) — negative widths are not
rejected — and it never fails on an unrecognized class name: such a class
gets the default base weight 1 and its raw, untranslated label in the
message. -/
theorem assess_error_iff_zero_width (d : Detection) (fw : ℤ) :
    ((assess d fw).isOk = false ↔ fw = 0) ∧
    (∀ a, assess d fw = Except.ok a →
      d.class_name ∉ DANGEROUS_OBJECTS.map Prod.fst →
      d.class_name ∉ translations.map Prod.fst →
      a.danger_score = pymin 100 (1 * get_proximity_multiplier d.relative_area
        * get_position_multiplier d.center.1 fw) ∧
      a.message = VOICE_MESSAGES_format a.danger_level d.class_name) := by
  constructor
  · unfold assess
    split_ifs with h
    · simpa [Except.isOk, Except.toBool] using h
    · simpa [Except.isOk, Except.toBool] using h
  · intro a ha hd ht
    unfold assess at ha
    split_ifs at ha with h
    have heq := Except.ok.inj ha
    have hbase : dictGetD DANGEROUS_OBJECTS d.class_name 1 = 1 :=
      dictGetD_of_not_mem DANGEROUS_OBJECTS d.class_name 1 hd
    have htr : translate_object d.class_name = d.class_name :=
      translate_object_of_not_mem d.class_name ht
    subst heq
    constructor
    · simp only [hbase]
    · simp only [htr]

/-- C5 witness: the unknown class "zebra", centred in a 640-pixel frame,
is assessed without error with base weight 1 and the untranslated label. -/
theorem assess_error_iff_zero_width_witness :
    assess d_zebra 640 = Except.ok a_zebra ∧
    a_zebra.danger_score = pymin 100 (1 * get_proximity_multiplier d_zebra.relative_area
      * get_position_multiplier d_zebra.center.1 640) ∧
    a_zebra.message = VOICE_MESSAGES_format a_zebra.danger_level d_zebra.class_name := by
  have hdict : dictGetD DANGEROUS_OBJECTS ("zebra") 1 = 1 := by decide
  have htrz : translate_object ("zebra") = "zebra" := by decide
  have hassess : assess d_zebra 640 = Except.ok a_zebra := by
    norm_num [assess, d_zebra, a_zebra, hdict, htrz,
      get_proximity_multiplier, PROXIMITY_muy_cerca, PROXIMITY_cerca,
      PROXIMITY_medio, get_position_multiplier, pyabs, pymin,
      danger_level_of, VOICE_MESSAGES_format]
    decide
  refine ⟨hassess, (assess_error_iff_zero_width d_zebra 640).2 a_zebra hassess
    (by decide) (by decide)⟩

theorem find?_map_set {α : Type} (l : List (String × α)) (k : String) (v : α)
    (h : l.any (fun p => p.1 == k) = true) :
    (l.map (fun p => if p.1 == k then (k, v) else p)).find? (fun p => p.1 == k)
      = some (k, v) := by
  induction l with
  | nil => simp at h
  | cons p rest ih =>
    by_cases hp : (p.1 == k) = true
    · simp only [List.map_cons]
      rw [if_pos hp, List.find?_cons]
      simp
    · have hp' : (p.1 == k) = false := by
        cases hpk : (p.1 == k) with
        | false => rfl
        | true => exact absurd hpk hp
      have hrest : rest.any (fun p => p.1 == k) = true := by
        simpa [List.any_cons, hp'] using h
      simp only [List.map_cons]
      rw [if_neg hp, List.find?_cons]
      simp only [hp']
      exact ih hrest

theorem dictGetD_dictSet_self {α : Type} (l : List (String × α)) (k : String)
    (v : α) (dflt : α) : dictGetD (dictSet l k v) k dflt = v := by
  unfold dictSet
  by_cases h : l.any (fun p => p.1 == k) = true
  · rw [if_pos h]
    unfold dictGetD
    rw [find?_map_set l k v h]
  · rw [if_neg h]
    unfold dictGetD
    have hnone : l.find? (fun p => p.1 == k) = none :=
      List.find?_eq_none.2 (List.any_eq_false.1 (Bool.eq_false_iff.2 h))
    rw [List.find?_append, hnone]
    simp [List.find?_cons]

/-- C3.  For a fixed source key, two candidates cannot both pass the
cooldown gate within the 2-second window.  For `VoiceAlert.alert`, whose
cooldown map is keyed by object type: once an alert for a key is emitted at
time t, a candidate with the same key at time t' is suppressed (nothing is
enqueued, state unchanged) whenever t' − t < 2.0, and is enqueued whenever
t' − t ≥ 2.0 (so at t' = 2.1).  For `AudioAlertManager.update`, whose
`last_alert_time` is a single global timestamp, any candidate — in
particular one with the same key — is suppressed while the window since the
last emission has not elapsed. -/
theorem cooldown_same_key_window (st : List (String × ℚ))
    (m ot lv m' lv' : String) (t t' : ℚ)
    (hemit : (voice_alert st m ot lv t).1.isSome = true) :
    ((t' - t < ALERT_COOLDOWN →
        voice_alert (voice_alert st m ot lv t).2 m' ot lv' t'
          = (none, (voice_alert st m ot lv t).2)) ∧
      (ALERT_COOLDOWN ≤ t' - t →
        (voice_alert (voice_alert st m ot lv t).2 m' ot lv' t').1.isSome = true)) ∧
    (∀ (tts : String → Option (List Nat)) (ast : AAMState) (score : ℚ)
        (l : List DangerAssessment) (u : ℚ),
      u - ast.last_alert_time < ALERT_COOLDOWN →
        audio_update tts ast score l u = (none, ast)) := by
  have hcool : ¬ (t - dictGetD st ot 0 < ALERT_COOLDOWN) := by
    intro hc
    simp only [voice_alert, if_pos hc] at hemit
    simp at hemit
  have hst2 : (voice_alert st m ot lv t).2 = dictSet st ot t := by
    simp only [voice_alert, if_neg hcool]
  have hlook : dictGetD (voice_alert st m ot lv t).2 ot 0 = t := by
    rw [hst2]
    exact dictGetD_dictSet_self st ot t 0
  refine ⟨⟨?_, ?_⟩, ?_⟩
  · intro hlt
    rw [hst2]
    simp only [voice_alert, dictGetD_dictSet_self]
    rw [if_pos hlt]
  · intro hge
    rw [hst2]
    simp only [voice_alert, dictGetD_dictSet_self]
    rw [if_neg (by linarith : ¬ t' - t < ALERT_COOLDOWN)]
    rfl
  · intro tts ast score l u hu
    unfold audio_update
    split_ifs with h1 <;> rfl

/-- C3 witness: with a stale entry for "car", an alert at t = 0 is emitted;
the same key at t = 1.9 is suppressed and at t = 2.1 is enqueued; and the
audio gate returns nothing 1.9 s after its last emission. -/
theorem cooldown_same_key_window_witness :
    (voice_alert (voice_alert vstate0 ("m") ("car") ("ALTO") 0).2
        ("m") ("car") ("ALTO") (19/10)
      = (none, (voice_alert vstate0 ("m") ("car") ("ALTO") 0).2)) ∧
    ((voice_alert (voice_alert vstate0 ("m") ("car") ("ALTO") 0).2
        ("m") ("car") ("ALTO") (21/10)).1.isSome = true) ∧
    audio_update tts1 aam0 50 [] (19/10) = (none, aam0) := by
  have hemit : (voice_alert vstate0 ("m") ("car") ("ALTO") 0).1.isSome = true := by
    have hl : dictGetD vstate0 ("car") 0 = -100 := by decide
    simp only [voice_alert, hl]
    norm_num [ALERT_COOLDOWN]
  refine ⟨?_, ?_, ?_⟩
  · exact ((cooldown_same_key_window vstate0 ("m") ("car") ("ALTO") ("m")
      ("ALTO") 0 (19/10) hemit).1.1 (by norm_num [ALERT_COOLDOWN]))
  · exact ((cooldown_same_key_window vstate0 ("m") ("car") ("ALTO") ("m")
      ("ALTO") 0 (21/10) hemit).1.2 (by norm_num [ALERT_COOLDOWN]))
  · exact ((cooldown_same_key_window vstate0 ("m") ("car") ("ALTO") ("m")
      ("ALTO") 0 (19/10) hemit).2 tts1 aam0 50 [] (19/10)
      (by norm_num [aam0, ALERT_COOLDOWN]))

/-- C4.  A candidate whose built message equals the immediately preceding
emitted message is suppressed by `AudioAlertManager.update` whenever
now − last_alert_time < cooldown·1.5 = 3.0 s — the manager keeps no source
key at all, so this holds across different source keys by construction —
and once now − last_alert_time ≥ 3.0 the identical message is emitted again
(given a sufficient score and successful text-to-speech). -/
theorem cooldown_identical_message_window (tts : String → Option (List Nat))
    (st : AAMState) (score : ℚ) (l : List DangerAssessment) (t : ℚ)
    (hmsg : build_message l = st.last_message) :
    (t - st.last_alert_time < 3 → audio_update tts st score l t = (none, st)) ∧
    (3 ≤ t - st.last_alert_time → min_danger_threshold ≤ score →
      ∀ b, tts (build_message l) = some b → b ≠ [] →
        audio_update tts st score l t
          = (some b, { last_alert_time := t, last_message := build_message l })) := by
  constructor
  · intro hlt
    simp only [audio_update]
    split_ifs with h1 h2 h3
    · rfl
    · rfl
    · rfl
    · exact absurd ⟨hmsg, by norm_num [ALERT_COOLDOWN]; linarith⟩ h3
  · intro hge hscore b hb hbne
    have hc1 : ¬ score < min_danger_threshold := by linarith
    have hc2 : ¬ t - st.last_alert_time < ALERT_COOLDOWN := by
      norm_num [ALERT_COOLDOWN]
      linarith
    have hc3 : ¬ (build_message l = st.last_message ∧
        t - st.last_alert_time < ALERT_COOLDOWN * (3/2)) := by
      rintro ⟨-, hw⟩
      norm_num [ALERT_COOLDOWN] at hw
      linarith
    simp only [audio_update, if_neg hc1, if_neg hc2, if_neg hc3, hb,
      if_pos hbne]

/-- C4 witness: after an emission of the default message at t = 0, the same
message is suppressed at t = 2.5 (2.5 < 3.0, though the per-key window 2.0
has elapsed) and emitted again at t = 3.1. -/
theorem cooldown_identical_message_window_witness :
    audio_update tts1 aam0 50 [] (5/2) = (none, aam0) ∧
    audio_update tts1 aam0 50 [] (31/10)
      = (some [1], { last_alert_time := 31/10,
                     last_message := build_message [] }) := by
  have hmsg : build_message [] = aam0.last_message := by decide
  constructor
  · exact (cooldown_identical_message_window tts1 aam0 50 [] (5/2) hmsg).1
      (by norm_num [aam0])
  · exact (cooldown_identical_message_window tts1 aam0 50 [] (31/10) hmsg).2
      (by norm_num [aam0]) (by norm_num [min_danger_threshold]) [1] rfl
      (by simp)

/-- C10.  The cooldown gate's state update is atomic with its decision:
whenever `AudioAlertManager.update` returns no audio — low score, unelapsed
cooldown, identical message repeated within 1.5× the window, or failed
text-to-speech — `last_alert_time` and `last_message` are left unchanged,
and the state is rewritten to (now, emitted message) only on calls that
return audio bytes. -/
theorem audio_update_state_atomic (tts : String → Option (List Nat))
    (st : AAMState) (score : ℚ) (l : List DangerAssessment) (t : ℚ) :
    ((audio_update tts st score l t).1 = none →
      (audio_update tts st score l t).2 = st) ∧
    ((audio_update tts st score l t).2 ≠ st →
      (audio_update tts st score l t).1 = tts (build_message l) ∧
      (audio_update tts st score l t).2
        = { last_alert_time := t, last_message := build_message l }) ∧
    (score < min_danger_threshold → audio_update tts st score l t = (none, st)) ∧
    (t - st.last_alert_time < ALERT_COOLDOWN →
      audio_update tts st score l t = (none, st)) ∧
    (build_message l = st.last_message →
      t - st.last_alert_time < ALERT_COOLDOWN * (3/2) →
      audio_update tts st score l t = (none, st)) ∧
    (tts (build_message l) = none → audio_update tts st score l t = (none, st)) := by
  simp only [audio_update]
  split_ifs with h1 h2 h3
  · exact ⟨fun _ => rfl, fun hne => absurd rfl hne, fun _ => rfl, fun _ => rfl,
      fun _ _ => rfl, fun _ => rfl⟩
  · exact ⟨fun _ => rfl, fun hne => absurd rfl hne, fun _ => rfl, fun _ => rfl,
      fun _ _ => rfl, fun _ => rfl⟩
  · exact ⟨fun _ => rfl, fun hne => absurd rfl hne, fun _ => rfl, fun _ => rfl,
      fun _ _ => rfl, fun _ => rfl⟩
  · cases htts : tts (build_message l) with
    | none =>
      exact ⟨fun _ => rfl, fun hne => absurd rfl hne, fun hs => absurd hs h1,
        fun hc => absurd hc h2, fun ha hb => absurd ⟨ha, hb⟩ h3, fun _ => rfl⟩
    | some b =>
      by_cases hbne : b ≠ []
      · dsimp only
        rw [if_pos hbne]
        exact ⟨fun hn => absurd hn (by simp), fun _ => ⟨rfl, rfl⟩,
          fun hs => absurd hs h1, fun hc => absurd hc h2,
          fun ha hb => absurd ⟨ha, hb⟩ h3,
          fun hn => Option.noConfusion hn⟩
      · dsimp only
        rw [if_neg hbne]
        exact ⟨fun hn => absurd hn (by simp), fun hne => absurd rfl hne,
          fun hs => absurd hs h1, fun hc => absurd hc h2,
          fun ha hb => absurd ⟨ha, hb⟩ h3,
          fun hn => Option.noConfusion hn⟩

/-- C10 witness: a below-threshold score (10 < 20) returns no audio and
leaves the state unchanged. -/
theorem audio_update_state_atomic_witness :
    audio_update tts1 aam0 10 [] 100 = (none, aam0) :=
  (audio_update_state_atomic tts1 aam0 10 [] 100).2.2.1
    (by norm_num [min_danger_threshold])

theorem insert_desc_head (x : DangerAssessment) (l : List DangerAssessment) :
    (insert_desc_by_score x l).head? = some (match l.head? with
      | none => x
      | some y => if x.danger_score ≥ y.danger_score then x else y) := by
  cases l with
  | nil => rfl
  | cons y ys =>
    simp only [insert_desc_by_score, List.head?_cons]
    split_ifs with h <;> rfl

theorem sort_desc_head_first_max (l : List DangerAssessment) :
    (sort_desc_by_score l).head? = first_max_by_score l := by
  induction l with
  | nil => rfl
  | cons x xs ih =>
    simp only [sort_desc_by_score, first_max_by_score]
    rw [insert_desc_head, ih]
    cases hm : first_max_by_score xs with
    | none => rfl
    | some m =>
      dsimp only
      rcases le_or_lt m.danger_score x.danger_score with h | h
      · rw [if_neg (by linarith : ¬ m.danger_score > x.danger_score)]
        exact congrArg some (if_pos h)
      · rw [if_pos h]
        exact congrArg some (if_neg (by linarith))

theorem first_max_isSome (x : DangerAssessment) (xs : List DangerAssessment) :
    (first_max_by_score (x :: xs)).isSome = true := by
  simp only [first_max_by_score]
  cases hm : first_max_by_score xs with
  | none => rfl
  | some m =>
    dsimp only
    split_ifs <;> rfl

theorem first_max_spec (l : List DangerAssessment) (a : DangerAssessment)
    (ha : first_max_by_score l = some a) :
    a ∈ l ∧ (∀ b ∈ l, b.danger_score ≤ a.danger_score) ∧
    ∃ i, l[i]? = some a ∧ ∀ (j : ℕ) (b : DangerAssessment), j < i →
      l[j]? = some b → b.danger_score < a.danger_score := by
  induction l generalizing a with
  | nil => simp [first_max_by_score] at ha
  | cons x xs ih =>
    simp only [first_max_by_score] at ha
    cases hm : first_max_by_score xs with
    | none =>
      rw [hm] at ha
      have hxs : xs = [] := by
        cases xs with
        | nil => rfl
        | cons z zs =>
          have hs := first_max_isSome z zs
          rw [hm] at hs
          simp at hs
      subst hxs
      have hax : x = a := Option.some.inj ha
      subst hax
      refine ⟨List.mem_cons_self x [], ?_, ⟨0, by simp, ?_⟩⟩
      · intro b hb
        rcases List.mem_cons.1 hb with hbx | hb'
        · rw [hbx]
        · exact absurd hb' (List.not_mem_nil b)
      · intro j b hj
        exact absurd hj (Nat.not_lt_zero j)
    | some m =>
      rw [hm] at ha
      dsimp only at ha
      obtain ⟨hmem, hbound, i, hi, hpre⟩ := ih m hm
      by_cases hgt : m.danger_score > x.danger_score
      · rw [if_pos hgt] at ha
        have ham : m = a := Option.some.inj ha
        subst ham
        refine ⟨List.mem_cons_of_mem x hmem, ?_, ⟨i + 1, ?_, ?_⟩⟩
        · intro b hb
          rcases List.mem_cons.1 hb with hbx | hb'
          · rw [hbx]; linarith
          · exact hbound b hb'
        · simpa using hi
        · intro j b hj hjb
          cases j with
          | zero =>
            have hbx : x = b := by simpa using hjb
            rw [← hbx]
            exact hgt
          | succ k =>
            exact hpre k b (by omega) (by simpa using hjb)
      · rw [if_neg hgt] at ha
        have hax : x = a := Option.some.inj ha
        subst hax
        push_neg at hgt
        refine ⟨List.mem_cons_self x xs, ?_, ⟨0, by simp, ?_⟩⟩
        · intro b hb
          rcases List.mem_cons.1 hb with hbx | hb'
          · rw [hbx]
          · exact le_trans (hbound b hb') hgt
        · intro j b hj
          exact absurd hj (Nat.not_lt_zero j)

/-- C8.  Per frame, `app.py` sorts the assessments by danger_score in
descending order with Python's stable sort and takes the first element:
that representative is exactly the assessment with the maximum
danger_score, ties broken by the earliest entry in detector output order,
and its danger_level and danger_score are the pair handed to the UI
indicator and to the audio alert gate. -/
theorem frame_representative_first_max (l : List DangerAssessment) :
    frame_representative l = first_max_by_score l ∧
    (l ≠ [] → (frame_representative l).isSome = true) ∧
    ∀ a, frame_representative l = some a →
      (frame_signals l = some (a.danger_level, a.danger_score) ∧
       a ∈ l ∧ (∀ b ∈ l, b.danger_score ≤ a.danger_score) ∧
       ∃ i, l[i]? = some a ∧ ∀ (j : ℕ) (b : DangerAssessment), j < i →
         l[j]? = some b → b.danger_score < a.danger_score) := by
  have hrep : frame_representative l = first_max_by_score l :=
    sort_desc_head_first_max l
  refine ⟨hrep, ?_, ?_⟩
  · intro hne
    cases l with
    | nil => exact absurd rfl hne
    | cons x xs =>
      rw [hrep]
      exact first_max_isSome x xs
  · intro a ha
    have hsig : frame_signals l = some (a.danger_level, a.danger_score) := by
      unfold frame_signals
      rw [ha]
    exact ⟨hsig, first_max_spec l a (hrep.symm.trans ha)⟩

/-- C8 witness: with a score-10 and a score-90 assessment in detector
order, the representative is the score-90 one; its level ALTO and score 90
are the frame's signals, it dominates every entry, and every earlier entry
scores strictly less. -/
theorem frame_representative_first_max_witness :
    frame_signals [da_low, da_high] = some (("ALTO"), 90) ∧
    da_high ∈ [da_low, da_high] ∧
    (∀ b ∈ [da_low, da_high], b.danger_score ≤ da_high.danger_score) ∧
    ∃ i, [da_low, da_high][i]? = some da_high ∧
      ∀ (j : ℕ) (b : DangerAssessment), j < i →
        [da_low, da_high][j]? = some b →
          b.danger_score < da_high.danger_score := by
  have hrep : frame_representative [da_low, da_high] = some da_high := by
    norm_num [frame_representative, sort_desc_by_score, insert_desc_by_score,
      da_low, da_high]
  have h := (frame_representative_first_max [da_low, da_high]).2.2 da_high hrep
  exact ⟨by rw [h.1]; rfl, h.2.1, h.2.2.1, h.2.2.2⟩
